import Mathlib

/-!
Shallow embedding of `src/nvme/json.c` (libnvme): the JSON
configuration import/export engine for the NVMe topology (hosts, subsystems,
controllers/endpoints).  External collaborators (the json-c codec, the
topology resolvers `nvme_lookup_*`, and the kernel keyring / secret store)
are modelled as oracle functions collected in an `Env` record; everything
in `json.c` itself is translated function by function.
-/

set_option autoImplicit false

namespace NvmeJson

/-- Generic JSON tree, as produced by the external json-c codec.
Object fields and array elements keep insertion order. -/
inductive JsonValue where
  | str  : String → JsonValue
  | int  : Int → JsonValue
  | bool : Bool → JsonValue
  | arr  : List JsonValue → JsonValue
  | obj  : List (String × JsonValue) → JsonValue
deriving Repr

mutual

/-- json-c textual rendering, used by `json_object_get_string` on
non-string values. -/
def jsonSerialize : JsonValue → String
  | .str s => "\x22" ++ s ++ "\x22"
  | .int n => toString n
  | .bool b => if b then "true" else "false"
  | .arr l => "[" ++ jsonSerializeArr l ++ "]"
  | .obj l => "\x7b" ++ jsonSerializeObj l ++ "\x7d"

/-- Comma-separated rendering of array elements. -/
def jsonSerializeArr : List JsonValue → String
  | [] => ""
  | [v] => jsonSerialize v
  | v :: vs => jsonSerialize v ++ "," ++ jsonSerializeArr vs

/-- Comma-separated rendering of object fields. -/
def jsonSerializeObj : List (String × JsonValue) → String
  | [] => ""
  | [(k, v)] => "\x22" ++ k ++ "\x22:" ++ jsonSerialize v
  | (k, v) :: vs =>
      "\x22" ++ k ++ "\x22:" ++ jsonSerialize v ++ "," ++ jsonSerializeObj vs

end

/-- `json_object_object_get`: first field with the given key of an object,
`NULL` (here `none`) for a missing key or a non-object. -/
def json_object_object_get (v : JsonValue) (key : String) : Option JsonValue :=
  match v with
  | .obj fields => (fields.find? (fun p => p.1 = key)).map Prod.snd
  | _ => none

/-- `json_object_get_string` (json-c): the value itself for a string,
the serialized text otherwise. -/
def json_object_get_string : JsonValue → String
  | .str s => s
  | v => jsonSerialize v

/-- `json_object_get_int` (json-c): value for ints, 0/1 for booleans,
parsed prefix for strings (approximated by full parse), 0 otherwise. -/
def json_object_get_int : JsonValue → Int
  | .int n => n
  | .bool b => if b then 1 else 0
  | .str s => (s.toInt?).getD 0
  | _ => 0

/-- `json_object_get_boolean` (json-c): value for booleans, `≠ 0` for ints,
non-empty for strings, false otherwise. -/
def json_object_get_boolean : JsonValue → Bool
  | .bool b => b
  | .int n => n ≠ 0
  | .str s => s.length ≠ 0
  | _ => false

/-- `NVMF_DEF_CTRL_LOSS_TMO` from `fabrics.h`: the sentinel ("unset")
value of `ctrl_loss_tmo`. -/
def NVMF_DEF_CTRL_LOSS_TMO : Int := 600

/-- `NVME_DISC_SUBSYS_NAME`: the reserved discovery-subsystem NQN. -/
def NVME_DISC_SUBSYS_NAME : String := "nqn.2014-08.org.nvmexpress.discovery"

/-- `EPROTO` errno value (Linux). -/
def EPROTO : Int := 71

/-- `struct nvme_fabrics_config` (the fields touched by `json.c`).
C `int` fields are modelled as `Int`, `long` (keyring/tls_key serials)
as `Int`, booleans as `Bool`. -/
structure nvme_fabrics_config where
  nr_io_queues : Int
  nr_write_queues : Int
  nr_poll_queues : Int
  queue_size : Int
  keep_alive_tmo : Int
  reconnect_delay : Int
  ctrl_loss_tmo : Int
  fast_io_fail_tmo : Int
  tos : Int
  duplicate_connect : Bool
  disable_sqflow : Bool
  hdr_digest : Bool
  data_digest : Bool
  tls : Bool
  concat : Bool
  keyring : Int
  tls_key : Int
deriving Repr, DecidableEq

/-- An `nvme_ctrl_t` as seen by `json.c`: its identity/addressing getters,
the dhchap key getters (`nvme_ctrl_get_dhchap_host_key` is emitted under
the JSON key `dhchap_key`, `nvme_ctrl_get_dhchap_key` under
`dhchap_ctrl_key`), the persistent/discovery flags and the fabrics
config. -/
structure nvme_ctrl where
  name : Option String
  transport : String
  traddr : Option String
  host_traddr : Option String
  host_iface : Option String
  trsvcid : Option String
  dhchap_host_key : Option String
  dhchap_ctrl_key : Option String
  persistent : Bool
  discovery : Bool
  cfg : nvme_fabrics_config
deriving Repr, DecidableEq

/-- An `nvme_subsystem_t` as seen by the export paths. -/
structure nvme_subsystem where
  name : String
  nqn : String
  application : Option String
  ctrls : List nvme_ctrl
deriving Repr, DecidableEq

/-- An `nvme_host_t` as seen by the export paths.  `pdc_enabled_valid`
is the validity bit of the tri-state persistent-discovery flag. -/
structure nvme_host where
  hostnqn : String
  hostid : Option String
  dhchap_key : Option String
  hostsymname : Option String
  pdc_enabled_valid : Bool
  pdc_enabled : Bool
  subsystems : List nvme_subsystem
deriving Repr, DecidableEq

/-- Oracle functions for everything external to `json.c`: the topology
resolvers (`0` models a NULL pointer result), the kernel keyring and the
TLS-key codec.  `insert_tls_key` models `nvme_insert_tls_key_versioned`
applied to (keyring description, identity type, hostnqn, subsysnqn,
version, hmac, key bytes); the byte-count argument of the C call is the
length of the byte list. -/
structure Env where
  lookup_host : String → Option String → Int
  lookup_subsystem : Int → String → Int
  lookup_ctrl : Int → String → Option String → Option String →
      Option String → Option String → Int
  lookup_keyring : String → Int
  import_tls_key : String → Option (List Nat × Nat)
  insert_tls_key : Option String → String → String → String →
      Nat → Nat → List Nat → Int
  read_key : Int → Int → Option (List Nat)
  export_tls_key : List Nat → Option String
  describe_key_serial : Int → Option String

/-- `json_import_nvme_tls_key`: decode the PSK interchange string and
insert it into the keyring; on success record the key serial in
`cfg.tls_key` and set `cfg.tls`.  Any failure (missing NQNs, decode
failure, non-positive insertion result) leaves the config unchanged. -/
def json_import_nvme_tls_key (env : Env) (hostnqn subsysnqn : Option String)
    (keyring_str : Option String) (encoded_key : String)
    (cfg : nvme_fabrics_config) : nvme_fabrics_config :=
  match hostnqn, subsysnqn with
  | some hn, some sn =>
    match env.import_tls_key encoded_key with
    | none => cfg
    | some (key_data, hmac) =>
      let key_id := env.insert_tls_key keyring_str "psk" hn sn 0 hmac key_data
      if key_id ≤ 0 then cfg
      else { cfg with tls_key := key_id, tls := true }
  | _, _ => cfg

/-- The mutable state threaded through the `json_object_object_foreach`
loop of `json_update_attributes`: the controller's fabrics config, its
persistent/discovery flags, the two deferred raw-string pointers
(`keyring_str`, `encoded_key`) and the process-global keyring installed
by `nvme_set_keyring` (a side effect the loop performs when it resolves
a keyring). -/
structure ScanState where
  cfg : nvme_fabrics_config
  persistent : Bool
  discovery : Bool
  keyring_str : Option String
  encoded_key : Option String
  global_keyring : Option Int
deriving Repr, DecidableEq

/-- One iteration of the `json_object_object_foreach` body of
`json_update_attributes`, applied to the field `(key, v)`.  Each C
`if (!strcmp(name, key) && guard)` is one branch; since the compared
names are pairwise distinct the sequential C tests are written as an
if-else chain.  Note the guards of `ctrl_loss_tmo` and `tos` in the
source compare with `!=` against their sentinels, unlike every other
integer field whose `JSON_UPDATE_INT_OPTION` guard is `== 0`. -/
def scanField (env : Env) (st : ScanState) (key : String) (v : JsonValue) :
    ScanState :=
  if key = "nr_io_queues" then
    if st.cfg.nr_io_queues = 0 then
      { st with cfg := { st.cfg with nr_io_queues := json_object_get_int v } }
    else st
  else if key = "nr_write_queues" then
    if st.cfg.nr_write_queues = 0 then
      { st with cfg := { st.cfg with nr_write_queues := json_object_get_int v } }
    else st
  else if key = "nr_poll_queues" then
    if st.cfg.nr_poll_queues = 0 then
      { st with cfg := { st.cfg with nr_poll_queues := json_object_get_int v } }
    else st
  else if key = "queue_size" then
    if st.cfg.queue_size = 0 then
      { st with cfg := { st.cfg with queue_size := json_object_get_int v } }
    else st
  else if key = "keep_alive_tmo" then
    if st.cfg.keep_alive_tmo = 0 then
      { st with cfg := { st.cfg with keep_alive_tmo := json_object_get_int v } }
    else st
  else if key = "reconnect_delay" then
    if st.cfg.reconnect_delay = 0 then
      { st with cfg := { st.cfg with reconnect_delay := json_object_get_int v } }
    else st
  else if key = "ctrl_loss_tmo" then
    if st.cfg.ctrl_loss_tmo ≠ NVMF_DEF_CTRL_LOSS_TMO then
      { st with cfg := { st.cfg with ctrl_loss_tmo := json_object_get_int v } }
    else st
  else if key = "fast_io_fail_tmo" then
    if st.cfg.fast_io_fail_tmo = 0 then
      { st with cfg := { st.cfg with fast_io_fail_tmo := json_object_get_int v } }
    else st
  else if key = "tos" then
    if st.cfg.tos ≠ -1 then
      { st with cfg := { st.cfg with tos := json_object_get_int v } }
    else st
  else if key = "duplicate_connect" then
    if st.cfg.duplicate_connect = false then
      { st with cfg := { st.cfg with duplicate_connect := json_object_get_boolean v } }
    else st
  else if key = "disable_sqflow" then
    if st.cfg.disable_sqflow = false then
      { st with cfg := { st.cfg with disable_sqflow := json_object_get_boolean v } }
    else st
  else if key = "hdr_digest" then
    if st.cfg.hdr_digest = false then
      { st with cfg := { st.cfg with hdr_digest := json_object_get_boolean v } }
    else st
  else if key = "data_digest" then
    if st.cfg.data_digest = false then
      { st with cfg := { st.cfg with data_digest := json_object_get_boolean v } }
    else st
  else if key = "tls" then
    if st.cfg.tls = false then
      { st with cfg := { st.cfg with tls := json_object_get_boolean v } }
    else st
  else if key = "concat" then
    if st.cfg.concat = false then
      { st with cfg := { st.cfg with concat := json_object_get_boolean v } }
    else st
  else if key = "persistent" then
    if st.persistent = false then { st with persistent := true } else st
  else if key = "discovery" then
    if st.discovery = false then { st with discovery := true } else st
  else if key = "keyring" then
    if st.cfg.keyring = 0 then
      if env.lookup_keyring (json_object_get_string v) ≠ 0 then
        { st with
          keyring_str := some (json_object_get_string v),
          cfg := { st.cfg with
                   keyring := env.lookup_keyring (json_object_get_string v) },
          global_keyring := some (env.lookup_keyring (json_object_get_string v)) }
      else { st with keyring_str := some (json_object_get_string v) }
    else st
  else if key = "tls_key" then
    if st.cfg.tls_key = 0 then
      { st with encoded_key := some (json_object_get_string v) }
    else st
  else st

/-- The whole `json_object_object_foreach` loop of
`json_update_attributes`, over the record's fields in document order. -/
def scanFields (env : Env) (st : ScanState) (fields : List (String × JsonValue)) :
    ScanState :=
  fields.foldl (fun s kv => scanField env s kv.1 kv.2) st

/-- Initial loop state for a controller `c`. -/
def initScan (c : nvme_ctrl) : ScanState :=
  { cfg := c.cfg, persistent := c.persistent, discovery := c.discovery,
    keyring_str := none, encoded_key := none, global_keyring := none }

/-- `json_update_attributes`: scan every field of the record, then — only
after the loop, so that a `keyring` field anywhere in the record has
already been resolved — import the deferred TLS key if one was seen.
`hostnqn`/`subsysnqn` are the values `json_import_nvme_tls_key` reads
from the controller's parent host and subsystem. -/
def json_update_attributes (env : Env) (hostnqn subsysnqn : Option String)
    (c : nvme_ctrl) (fields : List (String × JsonValue)) : nvme_ctrl :=
  let st := scanFields env (initScan c) fields
  let cfg :=
    match st.encoded_key with
    | some ek => json_import_nvme_tls_key env hostnqn subsysnqn st.keyring_str ek st.cfg
    | none => st.cfg
  { c with cfg := cfg, persistent := st.persistent, discovery := st.discovery }

/-! ## Export helpers (the `JSON_*_OPTION` macros) -/

/-- A `value = getter(c); if (value) json_object_object_add(obj, name, ...)`
sequence for an optional string attribute. -/
def strOptField (name : String) (v : Option String) : List (String × JsonValue) :=
  match v with
  | some s => [(name, .str s)]
  | none => []

/-- `JSON_INT_OPTION(c, p, o, d)`: emit `(name, value)` iff the live value
differs from the default/sentinel `d`. -/
def JSON_INT_OPTION (name : String) (v d : Int) : List (String × JsonValue) :=
  if v ≠ d then [(name, .int v)] else []

/-- `JSON_BOOL_OPTION(c, p, o)`: emit iff the live flag is set. -/
def JSON_BOOL_OPTION (name : String) (v : Bool) : List (String × JsonValue) :=
  if v then [(name, .bool v)] else []

/-- `json_export_nvme_tls_key`: read the key bytes back from the keyring
and, if both the read and the interchange re-encoding succeed, emit them
as `tls_key`; any failure just omits the field. -/
def json_export_nvme_tls_key (env : Env) (keyring_id tls_key : Int) :
    List (String × JsonValue) :=
  match env.read_key keyring_id tls_key with
  | some key_data =>
    match env.export_tls_key key_data with
    | some tls_str => [("tls_key", .str tls_str)]
    | none => []
  | none => []

/-- The `if (cfg->keyring) { describe; if (desc) add }` block. -/
def keyringDescField (env : Env) (keyring : Int) : List (String × JsonValue) :=
  if keyring ≠ 0 then
    match env.describe_key_serial keyring with
    | some desc => [("keyring", .str desc)]
    | none => []
  else []

/-- `json_update_port` (config-export path): `none` when the controller's
transport is `pcie` (the early return adds nothing to the array);
otherwise the port record's fields in emission order. -/
def json_update_port (env : Env) (c : nvme_ctrl) :
    Option (List (String × JsonValue)) :=
  if c.transport = "pcie" then none
  else some (
    [("transport", JsonValue.str c.transport)]
    ++ strOptField "traddr" c.traddr
    ++ strOptField "host_traddr" c.host_traddr
    ++ strOptField "host_iface" c.host_iface
    ++ strOptField "trsvcid" c.trsvcid
    ++ strOptField "dhchap_key" c.dhchap_host_key
    ++ strOptField "dhchap_ctrl_key" c.dhchap_ctrl_key
    ++ JSON_INT_OPTION "nr_io_queues" c.cfg.nr_io_queues 0
    ++ JSON_INT_OPTION "nr_write_queues" c.cfg.nr_write_queues 0
    ++ JSON_INT_OPTION "nr_poll_queues" c.cfg.nr_poll_queues 0
    ++ JSON_INT_OPTION "queue_size" c.cfg.queue_size 0
    ++ JSON_INT_OPTION "keep_alive_tmo" c.cfg.keep_alive_tmo 0
    ++ JSON_INT_OPTION "reconnect_delay" c.cfg.reconnect_delay 0
    ++ (if c.transport ≠ "loop" then
          JSON_INT_OPTION "ctrl_loss_tmo" c.cfg.ctrl_loss_tmo NVMF_DEF_CTRL_LOSS_TMO
          ++ JSON_INT_OPTION "fast_io_fail_tmo" c.cfg.fast_io_fail_tmo 0
        else [])
    ++ JSON_INT_OPTION "tos" c.cfg.tos (-1)
    ++ JSON_BOOL_OPTION "duplicate_connect" c.cfg.duplicate_connect
    ++ JSON_BOOL_OPTION "disable_sqflow" c.cfg.disable_sqflow
    ++ JSON_BOOL_OPTION "hdr_digest" c.cfg.hdr_digest
    ++ JSON_BOOL_OPTION "data_digest" c.cfg.data_digest
    ++ JSON_BOOL_OPTION "tls" c.cfg.tls
    ++ JSON_BOOL_OPTION "concat" c.cfg.concat
    ++ (if c.persistent then [("persistent", JsonValue.bool true)] else [])
    ++ (if c.discovery then [("discovery", JsonValue.bool true)] else [])
    ++ keyringDescField env c.cfg.keyring
    ++ (if c.cfg.tls_key ≠ 0 then
          json_export_nvme_tls_key env c.cfg.keyring c.cfg.tls_key
        else []))

/-- `json_update_subsys` (config-export path): discovery subsystems are
skipped outright, and a subsystem whose emitted port array is empty is
dropped (`json_object_put`). -/
def json_update_subsys (env : Env) (s : nvme_subsystem) :
    Option (List (String × JsonValue)) :=
  if s.nqn = NVME_DISC_SUBSYS_NAME then none
  else
    let ports := s.ctrls.filterMap (json_update_port env)
    if ports.length ≠ 0 then
      some ([("nqn", JsonValue.str s.nqn)]
        ++ strOptField "application" s.application
        ++ [("ports", JsonValue.arr (ports.map JsonValue.obj))])
    else none

/-- The per-host body of `json_update_config`: a host whose emitted
subsystem array is empty is dropped (`json_object_put`). -/
def json_update_host (env : Env) (h : nvme_host) :
    Option (List (String × JsonValue)) :=
  let subsys := h.subsystems.filterMap (json_update_subsys env)
  if subsys.length ≠ 0 then
    some ([("hostnqn", JsonValue.str h.hostnqn)]
      ++ strOptField "hostid" h.hostid
      ++ strOptField "dhchap_key" h.dhchap_key
      ++ strOptField "hostsymname" h.hostsymname
      ++ (if h.pdc_enabled_valid then
            [("persistent_discovery_ctrl", JsonValue.bool h.pdc_enabled)]
          else [])
      ++ [("subsystems", JsonValue.arr (subsys.map JsonValue.obj))])
  else none

/-- The tree built by `json_update_config` before it is serialized to the
file or stdout. -/
def json_update_config (env : Env) (hosts : List nvme_host) : JsonValue :=
  JsonValue.arr (hosts.filterMap (fun h => (json_update_host env h).map JsonValue.obj))

/-- `json_dump_ctrl` (diagnostic dump path): always emits a record, pcie
included; `tls`/`tls_key` are emitted only under the `tcp` transport
guard. -/
def json_dump_ctrl (env : Env) (c : nvme_ctrl) : List (String × JsonValue) :=
  (match c.name with
   | some n => if n.length ≠ 0 then [("name", JsonValue.str n)] else []
   | none => [])
  ++ [("transport", JsonValue.str c.transport)]
  ++ strOptField "traddr" c.traddr
  ++ strOptField "host_traddr" c.host_traddr
  ++ strOptField "host_iface" c.host_iface
  ++ strOptField "trsvcid" c.trsvcid
  ++ strOptField "dhchap_key" c.dhchap_host_key
  ++ strOptField "dhchap_ctrl_key" c.dhchap_ctrl_key
  ++ JSON_INT_OPTION "nr_io_queues" c.cfg.nr_io_queues 0
  ++ JSON_INT_OPTION "nr_write_queues" c.cfg.nr_write_queues 0
  ++ JSON_INT_OPTION "nr_poll_queues" c.cfg.nr_poll_queues 0
  ++ JSON_INT_OPTION "queue_size" c.cfg.queue_size 0
  ++ JSON_INT_OPTION "keep_alive_tmo" c.cfg.keep_alive_tmo 0
  ++ JSON_INT_OPTION "reconnect_delay" c.cfg.reconnect_delay 0
  ++ (if c.transport ≠ "loop" then
        JSON_INT_OPTION "ctrl_loss_tmo" c.cfg.ctrl_loss_tmo NVMF_DEF_CTRL_LOSS_TMO
        ++ JSON_INT_OPTION "fast_io_fail_tmo" c.cfg.fast_io_fail_tmo 0
      else [])
  ++ JSON_INT_OPTION "tos" c.cfg.tos (-1)
  ++ JSON_BOOL_OPTION "duplicate_connect" c.cfg.duplicate_connect
  ++ JSON_BOOL_OPTION "disable_sqflow" c.cfg.disable_sqflow
  ++ JSON_BOOL_OPTION "hdr_digest" c.cfg.hdr_digest
  ++ JSON_BOOL_OPTION "data_digest" c.cfg.data_digest
  ++ (if c.transport = "tcp" then
        JSON_BOOL_OPTION "tls" c.cfg.tls
        ++ (if c.cfg.tls_key ≠ 0 then
              json_export_nvme_tls_key env c.cfg.keyring c.cfg.tls_key
            else [])
      else [])
  ++ JSON_BOOL_OPTION "concat" c.cfg.concat
  ++ (if c.persistent then [("persistent", JsonValue.bool true)] else [])
  ++ (if c.discovery then [("discovery", JsonValue.bool true)] else [])

/-! ## Import traversal (`json_parse_host` / `json_parse_subsys` /
`json_parse_port` / `json_read_config`) as an effect trace

The traversal's observable behavior is its sequence of calls into the
topology: resolver lookups and node mutations.  Node handles are the
resolvers' `Int` results; `0` models a NULL pointer.  The detailed
semantics of the `ctrlUpdateAttributes` mutation is the function
`json_update_attributes` above. -/

/-- One call the import traversal makes into the live topology. -/
inductive ImportEvent where
  | lookupHost (hostnqn : String) (hostid : Option String)
  | hostSetDhchapKey (h : Int) (k : String)
  | hostSetHostsymname (h : Int) (n : String)
  | hostSetPdcEnabled (h : Int) (b : Bool)
  | lookupSubsystem (h : Int) (nqn : String)
  | subsysSetApplication (s : Int) (a : String)
  | lookupCtrl (s : Int) (transport : String)
      (traddr host_traddr host_iface trsvcid : Option String)
  | ctrlUpdateAttributes (c : Int) (fields : List (String × JsonValue))
  | ctrlSetDhchapHostKey (c : Int) (k : String)
  | ctrlSetDhchapCtrlKey (c : Int) (k : String)
deriving Repr

/-- Whether an event mutates a topology node (as opposed to a resolver
lookup, which only finds or creates it). -/
def ImportEvent.isMutation : ImportEvent → Bool
  | .lookupHost _ _ => false
  | .lookupSubsystem _ _ => false
  | .lookupCtrl _ _ _ _ _ _ => false
  | _ => true

/-- The fields of an object record, `[]` for a non-object. -/
def objFields : JsonValue → List (String × JsonValue)
  | .obj fields => fields
  | _ => []

/-- `json_parse_port`: a record with no `transport` field is skipped; a
failed `nvme_lookup_ctrl` (NULL, modelled `0`) skips the record after
the lookup; otherwise the attributes are applied and the two dhchap keys
are set when present. -/
def json_parse_port (env : Env) (s : Int) (port_obj : JsonValue) :
    List ImportEvent :=
  match json_object_object_get port_obj "transport" with
  | none => []
  | some tr_obj =>
    let transport := json_object_get_string tr_obj
    let traddr := (json_object_object_get port_obj "traddr").map json_object_get_string
    let host_traddr :=
      (json_object_object_get port_obj "host_traddr").map json_object_get_string
    let host_iface :=
      (json_object_object_get port_obj "host_iface").map json_object_get_string
    let trsvcid :=
      (json_object_object_get port_obj "trsvcid").map json_object_get_string
    let c := env.lookup_ctrl s transport traddr host_traddr host_iface trsvcid
    ImportEvent.lookupCtrl s transport traddr host_traddr host_iface trsvcid ::
      if c = 0 then []
      else
        [ImportEvent.ctrlUpdateAttributes c (objFields port_obj)]
        ++ (match json_object_object_get port_obj "dhchap_key" with
            | some v => [ImportEvent.ctrlSetDhchapHostKey c (json_object_get_string v)]
            | none => [])
        ++ (match json_object_object_get port_obj "dhchap_ctrl_key" with
            | some v => [ImportEvent.ctrlSetDhchapCtrlKey c (json_object_get_string v)]
            | none => [])

/-- `json_parse_subsys`: a record with no `nqn` is skipped; a failed
`nvme_lookup_subsystem` skips the record after the lookup; otherwise the
optional `application` is set and each element of `ports` is parsed. -/
def json_parse_subsys (env : Env) (h : Int) (subsys_obj : JsonValue) :
    List ImportEvent :=
  match json_object_object_get subsys_obj "nqn" with
  | none => []
  | some nqn_obj =>
    let nqn := json_object_get_string nqn_obj
    let s := env.lookup_subsystem h nqn
    ImportEvent.lookupSubsystem h nqn ::
      if s = 0 then []
      else
        (match json_object_object_get subsys_obj "application" with
         | some v => [ImportEvent.subsysSetApplication s (json_object_get_string v)]
         | none => [])
        ++ (match json_object_object_get subsys_obj "ports" with
            | some (.arr ports) => ports.flatMap (json_parse_port env s)
            | _ => [])

/-- `json_parse_host`: a record with no `hostnqn` is skipped.  The source
does NOT check the result of `nvme_lookup_host`: the subsequent setter
calls and the recursion into `subsystems` happen with whatever handle
(possibly NULL, modelled `0`) the resolver returned. -/
def json_parse_host (env : Env) (host_obj : JsonValue) : List ImportEvent :=
  match json_object_object_get host_obj "hostnqn" with
  | none => []
  | some hn_obj =>
    let hostnqn := json_object_get_string hn_obj
    let hostid := (json_object_object_get host_obj "hostid").map json_object_get_string
    let h := env.lookup_host hostnqn hostid
    ImportEvent.lookupHost hostnqn hostid ::
      (match json_object_object_get host_obj "dhchap_key" with
       | some v => [ImportEvent.hostSetDhchapKey h (json_object_get_string v)]
       | none => [])
      ++ (match json_object_object_get host_obj "hostsymname" with
          | some v => [ImportEvent.hostSetHostsymname h (json_object_get_string v)]
          | none => [])
      ++ (match json_object_object_get host_obj "persistent_discovery_ctrl" with
          | some v => [ImportEvent.hostSetPdcEnabled h (json_object_get_boolean v)]
          | none => [])
      ++ (match json_object_object_get host_obj "subsystems" with
          | some (.arr subsystems) => subsystems.flatMap (json_parse_subsys env h)
          | _ => [])

/-- Result of `json_read_config`: the return value, the errno the call
leaves behind (`none` when the function neither fails in `open` nor sets
`errno` itself), and the trace of topology calls it performed. -/
structure ReadConfigResult where
  ret : Int
  errno : Option Int
  events : List ImportEvent
deriving Repr

/-- `json_read_config`.  `openErrno = some e` models `open(2)` failing
with errno `e` (the function then returns the negative fd, `-1`);
`parsed` models the result of `parse_json` (`none` covers a read error,
an empty file and a strict-parse failure, all of which make `parse_json`
return NULL).  A NULL parse or a non-array top level sets `errno` to
`EPROTO` and returns `-1` before any host record is visited; otherwise
every element of the top-level array is parsed and the result is 0. -/
def json_read_config (env : Env) (openErrno : Option Int)
    (parsed : Option JsonValue) : ReadConfigResult :=
  match openErrno with
  | some e => { ret := -1, errno := some e, events := [] }
  | none =>
    match parsed with
    | none => { ret := -1, errno := some EPROTO, events := [] }
    | some root =>
      match root with
      | .arr hosts =>
          { ret := 0, errno := none,
            events := hosts.flatMap (json_parse_host env) }
      | _ => { ret := -1, errno := some EPROTO, events := [] }

/-! ## Concrete fixtures

A fully-unset fabrics config (every field at its sentinel, as
`nvmf_default_config` initializes it), a benign oracle environment, and
small controllers and documents used to evaluate the functions at
concrete inputs. -/

/-- Config with every attribute at its sentinel. -/
def defConfig : nvme_fabrics_config :=
  { nr_io_queues := 0, nr_write_queues := 0, nr_poll_queues := 0,
    queue_size := 0, keep_alive_tmo := 0, reconnect_delay := 0,
    ctrl_loss_tmo := NVMF_DEF_CTRL_LOSS_TMO, fast_io_fail_tmo := 0,
    tos := -1, duplicate_connect := false, disable_sqflow := false,
    hdr_digest := false, data_digest := false, tls := false, concat := false,
    keyring := 0, tls_key := 0 }

/-- A benign oracle environment: every resolver succeeds (handle 1),
keyring lookups resolve to 7, TLS-key decode and insertion succeed
(serial 42), the read-back side fails. -/
def env0 : Env :=
  { lookup_host := fun _ _ => 1,
    lookup_subsystem := fun _ _ => 1,
    lookup_ctrl := fun _ _ _ _ _ _ => 1,
    lookup_keyring := fun _ => 7,
    import_tls_key := fun _ => some ([1, 2], 1),
    insert_tls_key := fun _ _ _ _ _ _ _ => 42,
    read_key := fun _ _ => none,
    export_tls_key := fun _ => none,
    describe_key_serial := fun _ => none }

/-- `env0` with a failing host resolver (`nvme_lookup_host` returns NULL). -/
def envNullHost : Env := { env0 with lookup_host := fun _ _ => 0 }

/-- `env0` with a failing subsystem resolver. -/
def envNullSubsys : Env := { env0 with lookup_subsystem := fun _ _ => 0 }

/-- `env0` with a failing controller resolver. -/
def envNullCtrl : Env := { env0 with lookup_ctrl := fun _ _ _ _ _ _ => 0 }

/-- A plain rdma controller with an all-sentinel config. -/
def ctrl0 : nvme_ctrl :=
  { name := none, transport := "rdma", traddr := some "1.2.3.4",
    host_traddr := none, host_iface := none, trsvcid := none,
    dhchap_host_key := none, dhchap_ctrl_key := none,
    persistent := false, discovery := false, cfg := defConfig }

/-- An rdma (hence non-tcp) controller whose TLS flag is set. -/
def ctrlTlsRdma : nvme_ctrl := { ctrl0 with cfg := { defConfig with tls := true } }

/-- A loop controller with non-sentinel timeouts and TLS state set. -/
def ctrlLoop : nvme_ctrl :=
  { ctrl0 with
    transport := "loop",
    cfg := { defConfig with
             ctrl_loss_tmo := 30, fast_io_fail_tmo := 5, tls := true, tls_key := 3 } }

/-- `ctrl0` with `queue_size` already configured to 64. -/
def ctrlQ64 : nvme_ctrl := { ctrl0 with cfg := { defConfig with queue_size := 64 } }

/-- `ctrl0` with `tos` set to the legitimate non-sentinel value 0. -/
def ctrlTos0 : nvme_ctrl := { ctrl0 with cfg := { defConfig with tos := 0 } }

/-- A host record with an identity and one attribute, used against the
failing host resolver. -/
def hostRecSym : JsonValue :=
  JsonValue.obj [("hostnqn", JsonValue.str "nqn.host"),
                 ("hostsymname", JsonValue.str "sym")]

/-- A subsystem record that lacks its required `nqn` field. -/
def subsysRecNoNqn : JsonValue :=
  JsonValue.obj [("application", JsonValue.str "app")]

/-- A subsystem record with an `nqn` and one attribute. -/
def subsysRecApp : JsonValue :=
  JsonValue.obj [("nqn", JsonValue.str "nqn.subsys"),
                 ("application", JsonValue.str "app")]

/-- A port record that lacks its required `transport` field. -/
def portRecNoTransport : JsonValue :=
  JsonValue.obj [("traddr", JsonValue.str "1.2.3.4")]

/-- A port record with a transport and one attribute. -/
def portRecTcp : JsonValue :=
  JsonValue.obj [("transport", JsonValue.str "tcp"),
                 ("queue_size", JsonValue.int 16)]

/-! ## Helper lemmas about the export building blocks -/

@[simp] theorem mem_strOptField {p : String × JsonValue} {n : String}
    {v : Option String} :
    p ∈ strOptField n v ↔ ∃ s, v = some s ∧ p = (n, JsonValue.str s) := by
  cases v <;> simp [strOptField]

@[simp] theorem mem_JSON_INT_OPTION {p : String × JsonValue} {n : String}
    {v d : Int} :
    p ∈ JSON_INT_OPTION n v d ↔ v ≠ d ∧ p = (n, JsonValue.int v) := by
  by_cases h : v = d <;> simp [JSON_INT_OPTION, h]

@[simp] theorem mem_JSON_BOOL_OPTION {p : String × JsonValue} {n : String}
    {v : Bool} :
    p ∈ JSON_BOOL_OPTION n v ↔ v = true ∧ p = (n, JsonValue.bool v) := by
  cases v <;> simp [JSON_BOOL_OPTION]

@[simp] theorem mem_keyringDescField {p : String × JsonValue} {env : Env}
    {k : Int} :
    p ∈ keyringDescField env k ↔
      k ≠ 0 ∧ ∃ d, env.describe_key_serial k = some d ∧
        p = ("keyring", JsonValue.str d) := by
  unfold keyringDescField
  by_cases h : k = 0
  · simp [h]
  · cases hd : env.describe_key_serial k <;> simp [h, hd]

@[simp] theorem mem_json_export_nvme_tls_key {p : String × JsonValue}
    {env : Env} {kr tk : Int} :
    p ∈ json_export_nvme_tls_key env kr tk ↔
      ∃ data s, env.read_key kr tk = some data ∧
        env.export_tls_key data = some s ∧
        p = ("tls_key", JsonValue.str s) := by
  unfold json_export_nvme_tls_key
  cases hr : env.read_key kr tk with
  | none => simp
  | some data => cases he : env.export_tls_key data <;> simp [he]

theorem mem_ite_list {α : Type} {x : α} {p : Prop} [Decidable p]
    {l1 l2 : List α} :
    (x ∈ if p then l1 else l2) ↔ (p ∧ x ∈ l1) ∨ (¬ p ∧ x ∈ l2) := by
  split_ifs with h <;> simp [h]

/-! ## Claims -/

/-! ## Helper lemmas about the attribute scan loop -/

theorem scanFields_nil (env : Env) (st : ScanState) :
    scanFields env st [] = st := rfl

theorem scanFields_cons (env : Env) (st : ScanState)
    (kv : String × JsonValue) (t : List (String × JsonValue)) :
    scanFields env st (kv :: t) = scanFields env (scanField env st kv.1 kv.2) t := rfl

/-- A predicate preserved by every loop iteration is preserved by the
whole scan. -/
theorem scanFields_invariant (env : Env) (P : ScanState → Prop)
    (hstep : ∀ st k v, P st → P (scanField env st k v)) :
    ∀ (l : List (String × JsonValue)) (st : ScanState),
      P st → P (scanFields env st l) := by
  intro l
  induction l with
  | nil => intro st h; exact h
  | cons kv t ih =>
      intro st h
      rw [scanFields_cons]
      exact ih _ (hstep _ _ _ h)

/-- A field whose key matches none of the compared names leaves the
loop state unchanged. -/
theorem scanField_unknown (env : Env) (st : ScanState) (k : String) (v : JsonValue)
    (h1 : ¬ k = "nr_io_queues")
    (h2 : ¬ k = "nr_write_queues")
    (h3 : ¬ k = "nr_poll_queues")
    (h4 : ¬ k = "queue_size")
    (h5 : ¬ k = "keep_alive_tmo")
    (h6 : ¬ k = "reconnect_delay")
    (h7 : ¬ k = "ctrl_loss_tmo")
    (h8 : ¬ k = "fast_io_fail_tmo")
    (h9 : ¬ k = "tos")
    (h10 : ¬ k = "duplicate_connect")
    (h11 : ¬ k = "disable_sqflow")
    (h12 : ¬ k = "hdr_digest")
    (h13 : ¬ k = "data_digest")
    (h14 : ¬ k = "tls")
    (h15 : ¬ k = "concat")
    (h16 : ¬ k = "persistent")
    (h17 : ¬ k = "discovery")
    (h18 : ¬ k = "keyring")
    (h19 : ¬ k = "tls_key") :
    scanField env st k v = st := by
  unfold scanField
  rw [if_neg h1, if_neg h2, if_neg h3, if_neg h4, if_neg h5, if_neg h6, if_neg h7, if_neg h8, if_neg h9, if_neg h10, if_neg h11, if_neg h12, if_neg h13, if_neg h14, if_neg h15, if_neg h16, if_neg h17, if_neg h18, if_neg h19]

/-- Frame facts about one loop iteration, for an arbitrary key: every
already-set (non-zero) `JSON_UPDATE_INT_OPTION` field is kept, and the
persistent/discovery flags are never cleared. -/
theorem scanField_frame (env : Env) (st : ScanState) (k : String) (v : JsonValue) :
    (st.cfg.nr_io_queues ≠ 0 →
      (scanField env st k v).cfg.nr_io_queues = st.cfg.nr_io_queues)
  ∧ (st.cfg.nr_write_queues ≠ 0 →
      (scanField env st k v).cfg.nr_write_queues = st.cfg.nr_write_queues)
  ∧ (st.cfg.nr_poll_queues ≠ 0 →
      (scanField env st k v).cfg.nr_poll_queues = st.cfg.nr_poll_queues)
  ∧ (st.cfg.queue_size ≠ 0 →
      (scanField env st k v).cfg.queue_size = st.cfg.queue_size)
  ∧ (st.cfg.keep_alive_tmo ≠ 0 →
      (scanField env st k v).cfg.keep_alive_tmo = st.cfg.keep_alive_tmo)
  ∧ (st.cfg.reconnect_delay ≠ 0 →
      (scanField env st k v).cfg.reconnect_delay = st.cfg.reconnect_delay)
  ∧ (st.cfg.fast_io_fail_tmo ≠ 0 →
      (scanField env st k v).cfg.fast_io_fail_tmo = st.cfg.fast_io_fail_tmo)
  ∧ (st.persistent = true → (scanField env st k v).persistent = true)
  ∧ (st.discovery = true → (scanField env st k v).discovery = true) := by
  by_cases h1 : k = "nr_io_queues"
  · subst h1; simp [scanField]; try split_ifs <;> simp_all
  by_cases h2 : k = "nr_write_queues"
  · subst h2; simp [scanField]; try split_ifs <;> simp_all
  by_cases h3 : k = "nr_poll_queues"
  · subst h3; simp [scanField]; try split_ifs <;> simp_all
  by_cases h4 : k = "queue_size"
  · subst h4; simp [scanField]; try split_ifs <;> simp_all
  by_cases h5 : k = "keep_alive_tmo"
  · subst h5; simp [scanField]; try split_ifs <;> simp_all
  by_cases h6 : k = "reconnect_delay"
  · subst h6; simp [scanField]; try split_ifs <;> simp_all
  by_cases h7 : k = "ctrl_loss_tmo"
  · subst h7; simp [scanField]; try split_ifs <;> simp_all
  by_cases h8 : k = "fast_io_fail_tmo"
  · subst h8; simp [scanField]; try split_ifs <;> simp_all
  by_cases h9 : k = "tos"
  · subst h9; simp [scanField]; try split_ifs <;> simp_all
  by_cases h10 : k = "duplicate_connect"
  · subst h10; simp [scanField]; try split_ifs <;> simp_all
  by_cases h11 : k = "disable_sqflow"
  · subst h11; simp [scanField]; try split_ifs <;> simp_all
  by_cases h12 : k = "hdr_digest"
  · subst h12; simp [scanField]; try split_ifs <;> simp_all
  by_cases h13 : k = "data_digest"
  · subst h13; simp [scanField]; try split_ifs <;> simp_all
  by_cases h14 : k = "tls"
  · subst h14; simp [scanField]; try split_ifs <;> simp_all
  by_cases h15 : k = "concat"
  · subst h15; simp [scanField]; try split_ifs <;> simp_all
  by_cases h16 : k = "persistent"
  · subst h16; simp [scanField]; try split_ifs <;> simp_all
  by_cases h17 : k = "discovery"
  · subst h17; simp [scanField]; try split_ifs <;> simp_all
  by_cases h18 : k = "keyring"
  · subst h18; simp [scanField]; try split_ifs <;> simp_all
  by_cases h19 : k = "tls_key"
  · subst h19; simp [scanField]; try split_ifs <;> simp_all
  rw [scanField_unknown env st k v h1 h2 h3 h4 h5 h6 h7 h8 h9 h10 h11 h12 h13 h14 h15 h16 h17 h18 h19]
  simp

/-- `json_import_nvme_tls_key` only ever touches `tls_key` and `tls`. -/
theorem json_import_nvme_tls_key_touches_only_tls (env : Env)
    (hn sn ks : Option String) (ek : String) (cfg : nvme_fabrics_config) :
    (json_import_nvme_tls_key env hn sn ks ek cfg).nr_io_queues = cfg.nr_io_queues
  ∧ (json_import_nvme_tls_key env hn sn ks ek cfg).nr_write_queues = cfg.nr_write_queues
  ∧ (json_import_nvme_tls_key env hn sn ks ek cfg).nr_poll_queues = cfg.nr_poll_queues
  ∧ (json_import_nvme_tls_key env hn sn ks ek cfg).queue_size = cfg.queue_size
  ∧ (json_import_nvme_tls_key env hn sn ks ek cfg).keep_alive_tmo = cfg.keep_alive_tmo
  ∧ (json_import_nvme_tls_key env hn sn ks ek cfg).reconnect_delay = cfg.reconnect_delay
  ∧ (json_import_nvme_tls_key env hn sn ks ek cfg).fast_io_fail_tmo = cfg.fast_io_fail_tmo := by
  unfold json_import_nvme_tls_key
  cases hn with
  | none => simp
  | some h =>
    cases sn with
    | none => simp
    | some s =>
      cases hi : env.import_tls_key ek with
      | none => simp
      | some p =>
        cases p with
        | mk data hmac =>
          by_cases hk : env.insert_tls_key ks "psk" h s 0 hmac data ≤ 0 <;>
            simp [hk]

/-- Any integer-valued projection of the config that every loop
iteration keeps fixed (given it is non-zero) and that the deferred TLS
key import never changes is preserved by `json_update_attributes`
whenever it starts non-zero. -/
theorem json_update_attributes_keeps_proj (env : Env) (hn sn : Option String)
    (c : nvme_ctrl) (fields : List (String × JsonValue))
    (f : nvme_fabrics_config → Int)
    (hstep : ∀ st k v, f st.cfg ≠ 0 →
      f (scanField env st k v).cfg = f st.cfg)
    (himp : ∀ ks ek cfg, f (json_import_nvme_tls_key env hn sn ks ek cfg) = f cfg)
    (hne : f c.cfg ≠ 0) :
    f (json_update_attributes env hn sn c fields).cfg = f c.cfg := by
  have inv : f (scanFields env (initScan c) fields).cfg = f c.cfg := by
    refine scanFields_invariant env (fun st => f st.cfg = f c.cfg) ?_ fields (initScan c) rfl
    intro st k v hP
    rw [hstep st k v (by rw [hP]; exact hne)]
    exact hP
  unfold json_update_attributes
  cases he : (scanFields env (initScan c) fields).encoded_key <;>
    simp [he, himp, inv]

/-- Processing a `persistent` field sets the flag (to true) regardless of
the current state. -/
theorem scanField_persistent_set (env : Env) (st : ScanState) (v : JsonValue) :
    (scanField env st "persistent" v).persistent = true := by
  simp [scanField]; try split_ifs <;> simp_all

/-- Processing a `discovery` field sets the flag (to true) regardless of
the current state. -/
theorem scanField_discovery_set (env : Env) (st : ScanState) (v : JsonValue) :
    (scanField env st "discovery" v).discovery = true := by
  simp [scanField]; try split_ifs <;> simp_all

/-- If a `persistent` field occurs anywhere in the record, the scan ends
with the flag set. -/
theorem scanFields_persistent_mem (env : Env) :
    ∀ (l : List (String × JsonValue)) (st : ScanState) (v : JsonValue),
      ("persistent", v) ∈ l → (scanFields env st l).persistent = true := by
  intro l
  induction l with
  | nil => intro st v h; cases h
  | cons kv t ih =>
      intro st v hmem
      rw [scanFields_cons]
      rcases List.mem_cons.mp hmem with heq | ht
      · have hstep : (scanField env st kv.1 kv.2).persistent = true := by
          rw [← heq]; exact scanField_persistent_set env st v
        exact scanFields_invariant env (fun s => s.persistent = true)
          (fun s k w hp => (scanField_frame env s k w).2.2.2.2.2.2.2.1 hp) t _ hstep
      · exact ih _ _ ht

/-- If a `discovery` field occurs anywhere in the record, the scan ends
with the flag set. -/
theorem scanFields_discovery_mem (env : Env) :
    ∀ (l : List (String × JsonValue)) (st : ScanState) (v : JsonValue),
      ("discovery", v) ∈ l → (scanFields env st l).discovery = true := by
  intro l
  induction l with
  | nil => intro st v h; cases h
  | cons kv t ih =>
      intro st v hmem
      rw [scanFields_cons]
      rcases List.mem_cons.mp hmem with heq | ht
      · have hstep : (scanField env st kv.1 kv.2).discovery = true := by
          rw [← heq]; exact scanField_discovery_set env st v
        exact scanFields_invariant env (fun s => s.discovery = true)
          (fun s k w hp => (scanField_frame env s k w).2.2.2.2.2.2.2.2 hp) t _ hstep
      · exact ih _ _ ht

/-- Claim C1 (the code contradicts it): the import guards for
`ctrl_loss_tmo` and `tos` in `json_update_attributes` are inverted
(`!=` instead of `==` against the sentinel), so on a controller whose
value still equals the sentinel the document's value is NOT written,
and on a controller whose value is already non-sentinel the document's
value DOES overwrite it — the opposite of the fill-only-if-unset policy
the claim states and that every `JSON_UPDATE_INT_OPTION` field obeys.
This theorem evaluates the code at both failing inputs. -/
theorem c1_ctrl_loss_tmo_tos_guards_inverted :
    (json_update_attributes env0 (some "nqn.h") (some "nqn.s") ctrl0
        [("ctrl_loss_tmo", JsonValue.int 30),
         ("tos", JsonValue.int 5)]).cfg.ctrl_loss_tmo = NVMF_DEF_CTRL_LOSS_TMO
  ∧ (json_update_attributes env0 (some "nqn.h") (some "nqn.s") ctrl0
        [("ctrl_loss_tmo", JsonValue.int 30),
         ("tos", JsonValue.int 5)]).cfg.tos = -1
  ∧ (json_update_attributes env0 (some "nqn.h") (some "nqn.s")
        { ctrl0 with cfg := { defConfig with ctrl_loss_tmo := 50, tos := 3 } }
        [("ctrl_loss_tmo", JsonValue.int 30),
         ("tos", JsonValue.int 5)]).cfg.ctrl_loss_tmo = 30
  ∧ (json_update_attributes env0 (some "nqn.h") (some "nqn.s")
        { ctrl0 with cfg := { defConfig with ctrl_loss_tmo := 50, tos := 3 } }
        [("ctrl_loss_tmo", JsonValue.int 30),
         ("tos", JsonValue.int 5)]).cfg.tos = 5 := by
  exact ⟨rfl, rfl, rfl, rfl⟩

/-- Claim C2, counterexample: the config-export path `json_update_port`
emits the `tls` key for a controller whose transport is "rdma" (not
"tcp") once the TLS flag is set, so transport-conditionality of
`tls`/`tls_key` does not hold on the config-export path. -/
theorem c2_config_export_emits_tls_for_non_tcp :
    ctrlTlsRdma.transport ≠ "tcp" ∧ ctrlTlsRdma.cfg.tls = true ∧
    "tls" ∈ ((json_update_port env0 ctrlTlsRdma).getD []).map Prod.fst := by
  refine ⟨by decide, rfl, by decide⟩

/-- Claim C2 as amended: in both the config-export path and the dump
path, a "loop" controller never emits `ctrl_loss_tmo`/`fast_io_fail_tmo`;
and in the dump path (only), a controller whose transport is not "tcp"
never emits `tls`/`tls_key`. -/
theorem c2_transport_conditionality (env : Env) (c : nvme_ctrl) :
    (c.transport = "loop" →
      ∀ out, json_update_port env c = some out →
        (∀ v, ("ctrl_loss_tmo", v) ∉ out) ∧ (∀ v, ("fast_io_fail_tmo", v) ∉ out))
  ∧ (c.transport = "loop" →
      (∀ v, ("ctrl_loss_tmo", v) ∉ json_dump_ctrl env c) ∧
      (∀ v, ("fast_io_fail_tmo", v) ∉ json_dump_ctrl env c))
  ∧ (c.transport ≠ "tcp" →
      (∀ v, ("tls", v) ∉ json_dump_ctrl env c) ∧
      (∀ v, ("tls_key", v) ∉ json_dump_ctrl env c)) := by
  refine ⟨?_, ?_, ?_⟩
  · intro hloop out hout
    unfold json_update_port at hout
    rw [if_neg (by simp [hloop])] at hout
    injection hout with hout
    subst hout
    constructor <;> intro v <;>
      simp [hloop, List.mem_append, mem_ite_list]
  · intro hloop
    constructor <;> intro v <;> cases hn : c.name <;>
      simp [json_dump_ctrl, hloop, hn, List.mem_append, mem_ite_list]
  · intro htcp
    constructor <;> intro v <;> cases hn : c.name <;>
      simp [json_dump_ctrl, htcp, hn, List.mem_append, mem_ite_list]

/-- Claim C2, witness: the amended theorem applied to the concrete loop
controller with non-sentinel timeouts and to the rdma controller with
TLS state set. -/
theorem c2_transport_conditionality_witness :
    ("ctrl_loss_tmo", JsonValue.int 30) ∉ (json_update_port env0 ctrlLoop).getD []
  ∧ ("fast_io_fail_tmo", JsonValue.int 5) ∉ (json_update_port env0 ctrlLoop).getD []
  ∧ ("ctrl_loss_tmo", JsonValue.int 30) ∉ json_dump_ctrl env0 ctrlLoop
  ∧ ("tls", JsonValue.bool true) ∉ json_dump_ctrl env0 ctrlTlsRdma
  ∧ ("tls_key", JsonValue.str "k") ∉ json_dump_ctrl env0 ctrlTlsRdma := by
  have hloop := c2_transport_conditionality env0 ctrlLoop
  have hrdma := c2_transport_conditionality env0 ctrlTlsRdma
  have e : json_update_port env0 ctrlLoop
      = some ((json_update_port env0 ctrlLoop).getD []) := rfl
  exact ⟨(hloop.1 rfl _ e).1 _, (hloop.1 rfl _ e).2 _,
         (hloop.2.1 rfl).1 _,
         (hrdma.2.2 (by decide)).1 _, (hrdma.2.2 (by decide)).2 _⟩

/-- Claim C4: for every integer field with sentinel 0 (`nr_io_queues`,
`nr_write_queues`, `nr_poll_queues`, `queue_size`, `keep_alive_tmo`,
`reconnect_delay`, `fast_io_fail_tmo`), a controller whose live value is
already non-zero keeps that value unchanged across an import of any
record, whatever values the record supplies. -/
theorem c4_fill_only_if_unset (env : Env) (hn sn : Option String)
    (c : nvme_ctrl) (fields : List (String × JsonValue)) :
    (c.cfg.nr_io_queues ≠ 0 →
      (json_update_attributes env hn sn c fields).cfg.nr_io_queues = c.cfg.nr_io_queues)
  ∧ (c.cfg.nr_write_queues ≠ 0 →
      (json_update_attributes env hn sn c fields).cfg.nr_write_queues = c.cfg.nr_write_queues)
  ∧ (c.cfg.nr_poll_queues ≠ 0 →
      (json_update_attributes env hn sn c fields).cfg.nr_poll_queues = c.cfg.nr_poll_queues)
  ∧ (c.cfg.queue_size ≠ 0 →
      (json_update_attributes env hn sn c fields).cfg.queue_size = c.cfg.queue_size)
  ∧ (c.cfg.keep_alive_tmo ≠ 0 →
      (json_update_attributes env hn sn c fields).cfg.keep_alive_tmo = c.cfg.keep_alive_tmo)
  ∧ (c.cfg.reconnect_delay ≠ 0 →
      (json_update_attributes env hn sn c fields).cfg.reconnect_delay = c.cfg.reconnect_delay)
  ∧ (c.cfg.fast_io_fail_tmo ≠ 0 →
      (json_update_attributes env hn sn c fields).cfg.fast_io_fail_tmo = c.cfg.fast_io_fail_tmo) := by
  refine ⟨?_, ?_, ?_, ?_, ?_, ?_, ?_⟩
  · exact json_update_attributes_keeps_proj env hn sn c fields
      (fun cfg => cfg.nr_io_queues)
      (fun st k v h => (scanField_frame env st k v).1 h)
      (fun ks ek cfg => (json_import_nvme_tls_key_touches_only_tls env hn sn ks ek cfg).1)
  · exact json_update_attributes_keeps_proj env hn sn c fields
      (fun cfg => cfg.nr_write_queues)
      (fun st k v h => (scanField_frame env st k v).2.1 h)
      (fun ks ek cfg => (json_import_nvme_tls_key_touches_only_tls env hn sn ks ek cfg).2.1)
  · exact json_update_attributes_keeps_proj env hn sn c fields
      (fun cfg => cfg.nr_poll_queues)
      (fun st k v h => (scanField_frame env st k v).2.2.1 h)
      (fun ks ek cfg => (json_import_nvme_tls_key_touches_only_tls env hn sn ks ek cfg).2.2.1)
  · exact json_update_attributes_keeps_proj env hn sn c fields
      (fun cfg => cfg.queue_size)
      (fun st k v h => (scanField_frame env st k v).2.2.2.1 h)
      (fun ks ek cfg => (json_import_nvme_tls_key_touches_only_tls env hn sn ks ek cfg).2.2.2.1)
  · exact json_update_attributes_keeps_proj env hn sn c fields
      (fun cfg => cfg.keep_alive_tmo)
      (fun st k v h => (scanField_frame env st k v).2.2.2.2.1 h)
      (fun ks ek cfg => (json_import_nvme_tls_key_touches_only_tls env hn sn ks ek cfg).2.2.2.2.1)
  · exact json_update_attributes_keeps_proj env hn sn c fields
      (fun cfg => cfg.reconnect_delay)
      (fun st k v h => (scanField_frame env st k v).2.2.2.2.2.1 h)
      (fun ks ek cfg => (json_import_nvme_tls_key_touches_only_tls env hn sn ks ek cfg).2.2.2.2.2.1)
  · exact json_update_attributes_keeps_proj env hn sn c fields
      (fun cfg => cfg.fast_io_fail_tmo)
      (fun st k v h => (scanField_frame env st k v).2.2.2.2.2.2.1 h)
      (fun ks ek cfg => (json_import_nvme_tls_key_touches_only_tls env hn sn ks ek cfg).2.2.2.2.2.2)

/-- Claim C4, witness: a controller with `queue_size` 64 importing a
record with `queue_size` 128 keeps 64. -/
theorem c4_fill_only_if_unset_witness :
    ctrlQ64.cfg.queue_size = 64 ∧
    (json_update_attributes env0 (some "nqn.h") (some "nqn.s") ctrlQ64
        [("queue_size", JsonValue.int 128)]).cfg.queue_size = 64 := by
  have h := (c4_fill_only_if_unset env0 (some "nqn.h") (some "nqn.s") ctrlQ64
      [("queue_size", JsonValue.int 128)]).2.2.2.1 (by decide)
  exact ⟨rfl, h.trans (by rfl)⟩

/-- Claim C5: within one endpoint record, TLS-key import is order
independent in `tls_key`/`keyring` document order: the record with
`tls_key` before `keyring` imports exactly as the record with the fields
swapped does, the keyring description is resolved during the field scan
(the scan ends with `keyring_str = some ks` and the key insertion still
pending in `encoded_key`), and the deferred import performed after the
scan uses the resolved keyring string. -/
theorem c5_two_phase_tls_key_import (env : Env) (hn sn : Option String)
    (c : nvme_ctrl) (ek ks : String)
    (hkr : c.cfg.keyring = 0) (htk : c.cfg.tls_key = 0) :
    json_update_attributes env hn sn c
        [("tls_key", JsonValue.str ek), ("keyring", JsonValue.str ks)]
      = json_update_attributes env hn sn c
          [("keyring", JsonValue.str ks), ("tls_key", JsonValue.str ek)]
  ∧ (scanFields env (initScan c)
        [("tls_key", JsonValue.str ek), ("keyring", JsonValue.str ks)]).keyring_str
      = some ks
  ∧ (scanFields env (initScan c)
        [("tls_key", JsonValue.str ek), ("keyring", JsonValue.str ks)]).encoded_key
      = some ek
  ∧ json_update_attributes env hn sn c
        [("tls_key", JsonValue.str ek), ("keyring", JsonValue.str ks)]
      = { c with
          cfg := json_import_nvme_tls_key env hn sn (some ks) ek
              (scanFields env (initScan c)
                [("tls_key", JsonValue.str ek), ("keyring", JsonValue.str ks)]).cfg } := by
  by_cases hl : env.lookup_keyring ks = 0 <;>
    refine ⟨?_, ?_, ?_, ?_⟩ <;>
    simp [json_update_attributes, scanFields_cons, scanFields_nil, scanField,
          initScan, hkr, htk, hl, json_object_get_string]

/-- Claim C5, witness: the two field orders give the same result on the
concrete controller, and the import did land the inserted key serial. -/
theorem c5_two_phase_tls_key_import_witness :
    json_update_attributes env0 (some "nqn.h") (some "nqn.s") ctrl0
        [("tls_key", JsonValue.str "KEY"), ("keyring", JsonValue.str ".nvme")]
      = json_update_attributes env0 (some "nqn.h") (some "nqn.s") ctrl0
          [("keyring", JsonValue.str ".nvme"), ("tls_key", JsonValue.str "KEY")]
  ∧ (json_update_attributes env0 (some "nqn.h") (some "nqn.s") ctrl0
        [("tls_key", JsonValue.str "KEY"), ("keyring", JsonValue.str ".nvme")]).cfg.tls_key
      = 42 := by
  have h := c5_two_phase_tls_key_import env0 (some "nqn.h") (some "nqn.s")
    ctrl0 "KEY" ".nvme" rfl rfl
  exact ⟨h.1, by decide⟩

/-- Claim C8: importing a TLS key either succeeds completely (decode
succeeds and insertion returns a positive serial: then `tls_key` is set
to that serial and `tls` to true) or changes nothing (missing host or
subsystem NQN, decode failure, or non-positive insertion result leave
the whole config unchanged). -/
theorem c8_tls_key_import_all_or_nothing (env : Env) (ks : Option String)
    (ek : String) (cfg : nvme_fabrics_config) :
    (∀ sn, json_import_nvme_tls_key env none sn ks ek cfg = cfg)
  ∧ (∀ hn, json_import_nvme_tls_key env hn none ks ek cfg = cfg)
  ∧ (∀ hn sn, env.import_tls_key ek = none →
      json_import_nvme_tls_key env (some hn) (some sn) ks ek cfg = cfg)
  ∧ (∀ hn sn key_data hmac, env.import_tls_key ek = some (key_data, hmac) →
      env.insert_tls_key ks "psk" hn sn 0 hmac key_data ≤ 0 →
      json_import_nvme_tls_key env (some hn) (some sn) ks ek cfg = cfg)
  ∧ (∀ hn sn key_data hmac, env.import_tls_key ek = some (key_data, hmac) →
      0 < env.insert_tls_key ks "psk" hn sn 0 hmac key_data →
      json_import_nvme_tls_key env (some hn) (some sn) ks ek cfg
        = { cfg with tls_key := env.insert_tls_key ks "psk" hn sn 0 hmac key_data,
                     tls := true }) := by
  refine ⟨?_, ?_, ?_, ?_, ?_⟩
  · intro sn; cases sn <;> rfl
  · intro hn; cases hn <;> rfl
  · intro hn sn hdec; simp [json_import_nvme_tls_key, hdec]
  · intro hn sn key_data hmac hdec hins
    simp [json_import_nvme_tls_key, hdec, hins]
  · intro hn sn key_data hmac hdec hins
    simp [json_import_nvme_tls_key, hdec]
    intro hle
    exact absurd hle (not_le.mpr hins)

/-- Claim C8, witness: a missing subsystem NQN leaves the config alone,
while a successful decode and insertion (serial 42) sets `tls_key` and
`tls`. -/
theorem c8_tls_key_import_all_or_nothing_witness :
    json_import_nvme_tls_key env0 (some "nqn.h") none (some ".nvme") "KEY" defConfig
      = defConfig
  ∧ json_import_nvme_tls_key env0 (some "nqn.h") (some "nqn.s") (some ".nvme") "KEY"
        defConfig
      = { defConfig with tls_key := 42, tls := true } := by
  have h := c8_tls_key_import_all_or_nothing env0 (some ".nvme") "KEY" defConfig
  exact ⟨h.2.1 _, h.2.2.2.2 "nqn.h" "nqn.s" [1, 2] 1 rfl (by decide)⟩

/-- Claim C10: the importer never reads the document's boolean value for
the `persistent` and `discovery` fields: the loop iteration is
insensitive to the field's value, and whenever the key occurs in the
record the controller's flag ends up true — including for a record that
says `persistent: false` or `discovery: false`. -/
theorem c10_persistent_discovery_value_blind (env : Env) (hn sn : Option String)
    (c : nvme_ctrl) (fields : List (String × JsonValue)) (v w : JsonValue)
    (st : ScanState) :
    scanField env st "persistent" v = scanField env st "persistent" w
  ∧ scanField env st "discovery" v = scanField env st "discovery" w
  ∧ (("persistent", v) ∈ fields →
      (json_update_attributes env hn sn c fields).persistent = true)
  ∧ (("discovery", v) ∈ fields →
      (json_update_attributes env hn sn c fields).discovery = true) := by
  refine ⟨by simp [scanField], by simp [scanField], ?_, ?_⟩
  · intro hmem
    unfold json_update_attributes
    have hp := scanFields_persistent_mem env fields (initScan c) v hmem
    cases he : (scanFields env (initScan c) fields).encoded_key <;> simp [he, hp]
  · intro hmem
    unfold json_update_attributes
    have hd := scanFields_discovery_mem env fields (initScan c) v hmem
    cases he : (scanFields env (initScan c) fields).encoded_key <;> simp [he, hd]

/-- Claim C10, witness: a record with `persistent: false` and
`discovery: false` sets both flags to true on a previously-unset
controller. -/
theorem c10_persistent_discovery_value_blind_witness :
    ctrl0.persistent = false ∧ ctrl0.discovery = false ∧
    (json_update_attributes env0 (some "nqn.h") (some "nqn.s") ctrl0
        [("persistent", JsonValue.bool false),
         ("discovery", JsonValue.bool false)]).persistent = true ∧
    (json_update_attributes env0 (some "nqn.h") (some "nqn.s") ctrl0
        [("persistent", JsonValue.bool false),
         ("discovery", JsonValue.bool false)]).discovery = true := by
  have h := c10_persistent_discovery_value_blind env0 (some "nqn.h") (some "nqn.s")
    ctrl0
    [("persistent", JsonValue.bool false), ("discovery", JsonValue.bool false)]
    (JsonValue.bool false) (JsonValue.bool false) (initScan ctrl0)
  exact ⟨rfl, rfl,
         h.2.2.1 (List.mem_cons_self _ _),
         h.2.2.2 (List.mem_cons_of_mem _ (List.mem_cons_self _ _))⟩

/-- Claim C6: config export enumerates only controllers whose transport
is not "pcie"; a discovery-NQN subsystem never appears regardless of its
controllers; a subsystem is emitted iff it is non-discovery and has at
least one persisted (non-pcie) controller; a host is emitted iff at
least one of its subsystems is emitted; and the config tree is exactly
the array of the emitted hosts. -/
theorem c6_export_pruning (env : Env) :
    (∀ c : nvme_ctrl, (json_update_port env c).isSome ↔ c.transport ≠ "pcie")
  ∧ (∀ s : nvme_subsystem, s.nqn = NVME_DISC_SUBSYS_NAME →
       json_update_subsys env s = none)
  ∧ (∀ s : nvme_subsystem, (json_update_subsys env s).isSome ↔
       (s.nqn ≠ NVME_DISC_SUBSYS_NAME ∧ ∃ c ∈ s.ctrls, c.transport ≠ "pcie"))
  ∧ (∀ h : nvme_host, (json_update_host env h).isSome ↔
       ∃ s ∈ h.subsystems, (json_update_subsys env s).isSome)
  ∧ (∀ hosts : List nvme_host, json_update_config env hosts =
       JsonValue.arr (hosts.filterMap
         (fun h => (json_update_host env h).map JsonValue.obj))) := by
  have hport : ∀ c : nvme_ctrl,
      (json_update_port env c).isSome ↔ c.transport ≠ "pcie" := by
    intro c
    by_cases ht : c.transport = "pcie" <;> simp [json_update_port, ht]
  have hsubsys_eq : ∀ s : nvme_subsystem, json_update_subsys env s =
      if s.nqn = NVME_DISC_SUBSYS_NAME then none
      else if (s.ctrls.filterMap (json_update_port env)).length ≠ 0 then
        some ([("nqn", JsonValue.str s.nqn)]
          ++ strOptField "application" s.application
          ++ [("ports", JsonValue.arr
                ((s.ctrls.filterMap (json_update_port env)).map JsonValue.obj))])
      else none := fun s => rfl
  have hhost_eq : ∀ h : nvme_host, json_update_host env h =
      if (h.subsystems.filterMap (json_update_subsys env)).length ≠ 0 then
        some ([("hostnqn", JsonValue.str h.hostnqn)]
          ++ strOptField "hostid" h.hostid
          ++ strOptField "dhchap_key" h.dhchap_key
          ++ strOptField "hostsymname" h.hostsymname
          ++ (if h.pdc_enabled_valid then
                [("persistent_discovery_ctrl", JsonValue.bool h.pdc_enabled)]
              else [])
          ++ [("subsystems", JsonValue.arr
                ((h.subsystems.filterMap (json_update_subsys env)).map JsonValue.obj))])
      else none := fun h => rfl
  refine ⟨hport, ?_, ?_, ?_, fun hosts => rfl⟩
  · intro s hd
    rw [hsubsys_eq s, if_pos hd]
  · intro s
    rw [hsubsys_eq s]
    by_cases hd : s.nqn = NVME_DISC_SUBSYS_NAME
    · simp [hd]
    · rw [if_neg hd]
      by_cases hp : (s.ctrls.filterMap (json_update_port env)).length ≠ 0
      · rw [if_pos hp]
        simp only [Option.isSome_some, true_iff]
        refine ⟨hd, ?_⟩
        have hne : ¬ s.ctrls.filterMap (json_update_port env) = [] := by
          intro hnil
          exact hp (by simp [hnil])
        rw [List.filterMap_eq_nil_iff] at hne
        push_neg at hne
        obtain ⟨c, hc, hcne⟩ := hne
        exact ⟨c, hc, (hport c).mp (Option.ne_none_iff_isSome.mp hcne)⟩
      · rw [if_neg hp]
        simp only [Option.isSome_none, Bool.false_eq_true, false_iff]
        rintro ⟨-, c, hc, ht⟩
        have hnil : s.ctrls.filterMap (json_update_port env) = [] :=
          List.length_eq_zero.mp (not_not.mp hp)
        rw [List.filterMap_eq_nil_iff] at hnil
        exact Option.ne_none_iff_isSome.mpr ((hport c).mpr ht) (hnil c hc)
  · intro h
    rw [hhost_eq h]
    by_cases hp : (h.subsystems.filterMap (json_update_subsys env)).length ≠ 0
    · rw [if_pos hp]
      simp only [Option.isSome_some, true_iff]
      have hne : ¬ h.subsystems.filterMap (json_update_subsys env) = [] := by
        intro hnil
        exact hp (by simp [hnil])
      rw [List.filterMap_eq_nil_iff] at hne
      push_neg at hne
      obtain ⟨s, hs, hsne⟩ := hne
      exact ⟨s, hs, Option.ne_none_iff_isSome.mp hsne⟩
    · rw [if_neg hp]
      simp only [Option.isSome_none, Bool.false_eq_true, false_iff]
      rintro ⟨s, hs, hsome⟩
      have hnil : h.subsystems.filterMap (json_update_subsys env) = [] :=
        List.length_eq_zero.mp (not_not.mp hp)
      rw [List.filterMap_eq_nil_iff] at hnil
      exact Option.ne_none_iff_isSome.mpr hsome (hnil s hs)

/-- Claim C7: on export an integer field is emitted iff its live value
differs from its sentinel: in `json_update_port` output the `tos` key is
present (with the live value) iff `tos` differs from its sentinel -1 —
in particular `tos = 0` does produce the key — and the
`JSON_INT_OPTION` building block emits iff value differs from default. -/
theorem c7_default_omission (env : Env) (c : nvme_ctrl) :
    (∀ out, json_update_port env c = some out →
       (c.cfg.tos ≠ -1 → ("tos", JsonValue.int c.cfg.tos) ∈ out)
       ∧ (c.cfg.tos = -1 → ∀ v, ("tos", v) ∉ out))
  ∧ (∀ (n : String) (x d : Int),
       (n, JsonValue.int x) ∈ JSON_INT_OPTION n x d ↔ x ≠ d) := by
  constructor
  · intro out hout
    by_cases hp : c.transport = "pcie"
    · simp [json_update_port, hp] at hout
    · unfold json_update_port at hout
      rw [if_neg hp] at hout
      injection hout with hout
      subst hout
      constructor
      · intro hne
        simp [List.mem_append, mem_ite_list, hne]
      · intro hsen v
        simp [List.mem_append, mem_ite_list, hsen]
  · intro n x d
    by_cases hx : x = d <;> simp [JSON_INT_OPTION, hx]

/-- Claim C7, witness: `tos = 0` emits the key with value 0 on the
concrete controller; `tos = -1` (sentinel) emits no `tos` key. -/
theorem c7_default_omission_witness :
    ("tos", JsonValue.int 0) ∈ (json_update_port env0 ctrlTos0).getD []
  ∧ ("tos", JsonValue.int (-1)) ∉ (json_update_port env0 ctrl0).getD [] := by
  have h0 := (c7_default_omission env0 ctrlTos0).1
    ((json_update_port env0 ctrlTos0).getD []) rfl
  have h1 := (c7_default_omission env0 ctrl0).1
    ((json_update_port env0 ctrl0).getD []) rfl
  exact ⟨by simpa [ctrlTos0] using h0.1 (by decide),
         h1.2 rfl (JsonValue.int (-1))⟩

/-- Claim C3, counterexample: when `nvme_lookup_host` fails (returns
NULL, handle 0) the host record is NOT skipped — `json_parse_host` has
no check on the resolver result, so the record's attributes are still
applied (here `hostsymname` is set on the NULL handle) and the walk
would continue into its subsystems. -/
theorem c3_host_resolver_failure_not_skipped :
    envNullHost.lookup_host "nqn.host" none = 0
  ∧ json_parse_host envNullHost hostRecSym
      = [ImportEvent.lookupHost "nqn.host" none,
         ImportEvent.hostSetHostsymname 0 "sym"]
  ∧ (ImportEvent.hostSetHostsymname 0 "sym").isMutation = true := by
  refine ⟨rfl, ?_, rfl⟩
  rfl

/-- Claim C3 as amended: a record missing its required identity field
(`hostnqn`, `nqn`, `transport`) is skipped outright at every level; a
subsystem or endpoint record whose resolver call fails is skipped after
the lookup, with no mutation applied; and processing always continues
with the next sibling (a skipped sibling contributes nothing to the
walk).  The host level differs from the claim: the host resolver's
result is not checked, so only a missing `hostnqn` skips a host
record. -/
theorem c3_record_skipping (env : Env) :
    (∀ obj, json_object_object_get obj "hostnqn" = none →
       json_parse_host env obj = [])
  ∧ (∀ h obj, json_object_object_get obj "nqn" = none →
       json_parse_subsys env h obj = [])
  ∧ (∀ h obj nqn_obj, json_object_object_get obj "nqn" = some nqn_obj →
       env.lookup_subsystem h (json_object_get_string nqn_obj) = 0 →
       json_parse_subsys env h obj =
         [ImportEvent.lookupSubsystem h (json_object_get_string nqn_obj)])
  ∧ (∀ s obj, json_object_object_get obj "transport" = none →
       json_parse_port env s obj = [])
  ∧ (∀ s obj tr_obj, json_object_object_get obj "transport" = some tr_obj →
       env.lookup_ctrl s (json_object_get_string tr_obj)
         ((json_object_object_get obj "traddr").map json_object_get_string)
         ((json_object_object_get obj "host_traddr").map json_object_get_string)
         ((json_object_object_get obj "host_iface").map json_object_get_string)
         ((json_object_object_get obj "trsvcid").map json_object_get_string) = 0 →
       json_parse_port env s obj =
         [ImportEvent.lookupCtrl s (json_object_get_string tr_obj)
           ((json_object_object_get obj "traddr").map json_object_get_string)
           ((json_object_object_get obj "host_traddr").map json_object_get_string)
           ((json_object_object_get obj "host_iface").map json_object_get_string)
           ((json_object_object_get obj "trsvcid").map json_object_get_string)])
  ∧ (∀ hh n, (ImportEvent.lookupSubsystem hh n).isMutation = false)
  ∧ (∀ ss tr a b d e, (ImportEvent.lookupCtrl ss tr a b d e).isMutation = false)
  ∧ (∀ h (xs ys : List JsonValue) (bad : JsonValue),
       json_parse_subsys env h bad = [] →
       (xs ++ bad :: ys).flatMap (json_parse_subsys env h)
         = xs.flatMap (json_parse_subsys env h)
           ++ ys.flatMap (json_parse_subsys env h)) := by
  refine ⟨?_, ?_, ?_, ?_, ?_, fun hh n => rfl, fun ss tr a b d e => rfl, ?_⟩
  · intro obj h
    simp [json_parse_host, h]
  · intro h obj hn
    simp [json_parse_subsys, hn]
  · intro h obj nqn_obj hn hl
    simp [json_parse_subsys, hn, hl]
  · intro s obj ht
    simp [json_parse_port, ht]
  · intro s obj tr_obj ht hl
    simp [json_parse_port, ht, hl]
  · intro h xs ys bad hbad
    simp [List.flatMap_append, hbad]

/-- Claim C3, witness: the amended behaviors at concrete inputs — a
subsystem record with no `nqn` and a port record with no `transport`
are skipped; failing subsystem and controller resolvers leave only the
lookup in the trace; the sibling walk of a three-element array drops
only the bad middle record. -/
theorem c3_record_skipping_witness :
    json_parse_subsys env0 1 subsysRecNoNqn = []
  ∧ json_parse_port env0 1 portRecNoTransport = []
  ∧ json_parse_subsys envNullSubsys 1 subsysRecApp
      = [ImportEvent.lookupSubsystem 1 "nqn.subsys"]
  ∧ json_parse_port envNullCtrl 1 portRecTcp
      = [ImportEvent.lookupCtrl 1 "tcp" none none none none]
  ∧ ([subsysRecApp] ++ subsysRecNoNqn :: [subsysRecApp]).flatMap
        (json_parse_subsys env0 1)
      = [subsysRecApp].flatMap (json_parse_subsys env0 1)
        ++ [subsysRecApp].flatMap (json_parse_subsys env0 1) := by
  have h0 := c3_record_skipping env0
  have hs := c3_record_skipping envNullSubsys
  have hc := c3_record_skipping envNullCtrl
  refine ⟨h0.2.1 1 subsysRecNoNqn rfl, ?_, ?_, ?_, ?_⟩
  · exact h0.2.2.2.1 1 portRecNoTransport rfl
  · exact hs.2.2.1 1 subsysRecApp (JsonValue.str "nqn.subsys") rfl rfl
  · exact hc.2.2.2.2.1 1 portRecTcp (JsonValue.str "tcp") rfl rfl
  · exact h0.2.2.2.2.2.2.2 1 [subsysRecApp] [subsysRecApp] subsysRecNoNqn
      (h0.2.1 1 subsysRecNoNqn rfl)

/-- Claim C9: `json_read_config` returns the underlying I/O failure when
the file cannot be opened; when the parse produces no document or the
top level is not an array it returns -1 with errno EPROTO having
performed no topology call at all; otherwise it walks every host record
and returns 0. -/
theorem c9_read_config_error_paths (env : Env) (parsed : Option JsonValue) :
    (∀ e, json_read_config env (some e) parsed
       = { ret := -1, errno := some e, events := [] })
  ∧ (json_read_config env none none
       = { ret := -1, errno := some EPROTO, events := [] })
  ∧ (∀ v, (∀ l, v ≠ JsonValue.arr l) →
       json_read_config env none (some v)
         = { ret := -1, errno := some EPROTO, events := [] })
  ∧ (∀ hosts, json_read_config env none (some (JsonValue.arr hosts))
       = { ret := 0, errno := none,
           events := hosts.flatMap (json_parse_host env) }) := by
  refine ⟨fun e => rfl, rfl, ?_, fun hosts => rfl⟩
  intro v hv
  cases v with
  | arr l => exact absurd rfl (hv l)
  | str s => rfl
  | int n => rfl
  | bool b => rfl
  | obj fields => rfl

/-- Claim C9, witness: the error paths at concrete inputs — a failed
open surfaces errno 2 (ENOENT), a failed parse and a non-array top
level surface EPROTO with an empty trace, and an array document walks
its host records and returns 0. -/
theorem c9_read_config_error_paths_witness :
    json_read_config env0 (some 2) none
      = { ret := -1, errno := some 2, events := [] }
  ∧ json_read_config env0 none none
      = { ret := -1, errno := some EPROTO, events := [] }
  ∧ json_read_config env0 none (some (JsonValue.obj []))
      = { ret := -1, errno := some EPROTO, events := [] }
  ∧ json_read_config env0 none (some (JsonValue.arr [hostRecSym]))
      = { ret := 0, errno := none,
          events := [hostRecSym].flatMap (json_parse_host env0) } := by
  have h := c9_read_config_error_paths env0 none
  exact ⟨h.1 2, h.2.1,
         h.2.2.1 (JsonValue.obj []) (fun l hl => JsonValue.noConfusion hl),
         h.2.2.2 [hostRecSym]⟩

end NvmeJson
